import Mathlib

/-!
Shallow embedding of the transport-fallback connection manager of
src/lib/socket.ts (class SocketService).

Modelling conventions:
* Callbacks are opaque handles modelled as natural numbers; reference
  equality on functions becomes equality of handles.
* The JS Map of event listeners becomes an association list whose keys
  stay unique (Map.set appends a fresh key at the end, in-place update
  otherwise), preserving the iteration order of the Map.
* JSON values are modelled by the inductive JsonVal; numbers are Int
  (the concrete messages of the spec only carry small integers), and
  JSON.parse of JSON.stringify is the identity on this tree.
* Timers (setTimeout) become entries of a pending list carrying a fresh
  handle and the kind of callback; clearTimeout removes a handle.
  firing a timer removes its entry and runs the callback body.
* One step of the model is one event-loop callback of the source: a
  public method call, a WebSocket handler, an SSE handler, or a timer
  firing.  Transport handlers fire only for the socket generation or
  per-topic stream currently registered, matching a browser delivering
  events to the handlers the service installed.
* Listener invocations performed by a callback body are returned as a
  list of (callback handle, argument) pairs in invocation order.
-/

namespace HotelSocket

/-- JSON value tree, the decoded form of a transport message. -/
inductive JsonVal : Type where
  | jnull : JsonVal
  | jbool : Bool → JsonVal
  | jnum : Int → JsonVal
  | jstr : String → JsonVal
  | jarr : List JsonVal → JsonVal
  | jobj : List (String × JsonVal) → JsonVal

/-- JS truthiness of a JSON value (null, false, 0 and the empty string
are falsy, arrays and objects are always truthy). -/
def truthy : JsonVal → Bool
  | JsonVal.jnull => false
  | JsonVal.jbool b => b
  | JsonVal.jnum n => n != 0
  | JsonVal.jstr s => s != ""
  | JsonVal.jarr _ => true
  | JsonVal.jobj _ => true

/-- Property read j.k: on an object the last binding of the key wins
(as after JSON.parse); on every other value the read yields undefined
(none).  A read on null throws in JS; the two message handlers wrap the
whole body in try/catch, so in context none and throw both end in no
dispatch, and none is used for both. -/
def jget : JsonVal → String → Option JsonVal
  | JsonVal.jobj fs, k => fs.reverse.lookup k
  | _, _ => none

/-- JS a || b where a may be undefined: keeps a when defined and
truthy, otherwise falls through to b (which may itself be undefined). -/
def jsOrField (a b : Option JsonVal) : Option JsonVal :=
  match a with
  | some v => if truthy v then some v else b
  | none => b

/-- JS a || d where a may be undefined and d is a value: keeps a when
defined and truthy, otherwise yields d. -/
def jsOrDefault (a : Option JsonVal) (d : JsonVal) : JsonVal :=
  match a with
  | some v => if truthy v then v else d
  | none => d

/-- First value bound to a key in an association list (the lists the
model builds keep their keys unique). -/
def findVal {α β : Type} [DecidableEq α] : List (α × β) → α → Option β
  | [], _ => none
  | (a, b) :: l, x => if a = x then some b else findVal l x

/-- The WebSocket object: its creation generation and its readyState
(0 CONNECTING, 1 OPEN, 2 CLOSING, 3 CLOSED). -/
structure WSock : Type where
  gen : Nat
  ready : Nat
deriving DecidableEq

/-- The kinds of setTimeout callbacks the source schedules: the
per-connection-attempt 3s connection timeout, the global 1s reconnect
timer, and the per-topic SSE retry. -/
inductive TimerKind : Type where
  | connTimeout : Nat → TimerKind
  | reconnect : TimerKind
  | sseRetry : String → TimerKind
deriving DecidableEq

/-- An EventSource the service constructed: its id, its topic (hotel
id), and whether it has been closed (by close() or by a fatal error
that put it in readyState CLOSED). -/
structure Stream : Type where
  id : Nat
  hotel : String
  closed : Bool
deriving DecidableEq

/-- The instance fields of class SocketService.  fallbackToPolling and
pollingInterval are declared in the source but never written after
initialisation (no code path sets them), so they keep their initial
values. -/
structure Svc : Type where
  socket : Option WSock
  isConnected : Bool
  eventListeners : List (String × List Nat)
  reconnectAttempts : Nat
  reconnectTimer : Option Nat
  fallbackToPolling : Bool
  pollingInterval : Option Nat
  sseConnections : List (String × Nat)
  useSSE : Bool
deriving DecidableEq

/-- The service state plus its environment: every EventSource ever
constructed, the pending timers, and fresh-id counters for timers,
socket generations and stream ids. -/
structure World : Type where
  svc : Svc
  streams : List Stream
  pending : List (Nat × TimerKind)
  nextT : Nat
  nextG : Nat
  nextS : Nat
deriving DecidableEq

def initSvc : Svc :=
  { socket := none, isConnected := false, eventListeners := [],
    reconnectAttempts := 0, reconnectTimer := none,
    fallbackToPolling := false, pollingInterval := none,
    sseConnections := [], useSSE := false }

def initWorld : World :=
  { svc := initSvc, streams := [], pending := [],
    nextT := 0, nextG := 0, nextS := 0 }

/-- maxReconnectAttempts = 2 in the source. -/
def maxReconnectAttempts : Nat := 2

/-- clearTimeout on a stored handle: removes that pending timer; a
null handle clears nothing. -/
def clearTimer (p : List (Nat × TimerKind)) (h : Option Nat) :
    List (Nat × TimerKind) :=
  match h with
  | some n => p.filter (fun t => t.1 ≠ n)
  | none => p

/-- clearTimeout on the connection-timeout handle a WebSocket handler
captured: generations are unique, so removing by kind removes exactly
that timer. -/
def removeKind (p : List (Nat × TimerKind)) (k : TimerKind) :
    List (Nat × TimerKind) :=
  p.filter (fun t => t.2 ≠ k)

/-- switchToSSE: commit to the SSE fallback.  Sets useSSE, drops the
connected flag, resets the reconnect counter to 0, closes and nulls
the WebSocket, and clears the stored reconnect timer. -/
def switchToSSE (w : World) : World :=
  { w with
    svc := { w.svc with
      useSSE := true, isConnected := false, reconnectAttempts := 0,
      socket := none, reconnectTimer := none },
    pending := clearTimer w.pending w.svc.reconnectTimer }

/-- connectWebSocket: construct a WebSocket in state CONNECTING (the
fixed wss URL is well formed, so the try/catch around construction
does not fire) and schedule its 3s connection timeout. -/
def connectWebSocket (w : World) : World :=
  { w with
    svc := { w.svc with socket := some { gen := w.nextG, ready := 0 } },
    pending := w.pending ++ [(w.nextT, TimerKind.connTimeout w.nextG)],
    nextT := w.nextT + 1,
    nextG := w.nextG + 1 }

/-- connect(): early return when a socket is present and connected; in
production (and not yet in SSE mode) go straight to switchToSSE;
otherwise attempt a WebSocket unless already in SSE mode. -/
def connect (prod : Bool) (w : World) : World :=
  if w.svc.socket.isSome && w.svc.isConnected then w
  else if prod && !w.svc.useSSE then switchToSSE w
  else if !w.svc.useSSE then connectWebSocket w
  else w

/-- attemptReconnect: no-op in SSE mode; switch to SSE once the counter
has reached the ceiling; otherwise count the attempt and schedule the
reconnect timer, overwriting the stored handle. -/
def attemptReconnect (w : World) : World :=
  if w.svc.useSSE then w
  else if maxReconnectAttempts ≤ w.svc.reconnectAttempts then switchToSSE w
  else
    { w with
      svc := { w.svc with
        reconnectAttempts := w.svc.reconnectAttempts + 1,
        reconnectTimer := some w.nextT },
      pending := w.pending ++ [(w.nextT, TimerKind.reconnect)],
      nextT := w.nextT + 1 }

/-- connectSSE(hotelId): no-op when the map already tracks the topic;
otherwise construct an EventSource for the topic and track it. -/
def connectSSE (w : World) (h : String) : World :=
  if (findVal w.svc.sseConnections h).isSome then w
  else
    { w with
      svc := { w.svc with
        sseConnections := w.svc.sseConnections ++ [(h, w.nextS)] },
      streams := w.streams ++ [{ id := w.nextS, hotel := h, closed := false }],
      nextS := w.nextS + 1 }

/-- Registry append: if the key is absent, Map.set adds it at the end
with an empty list and push appends the callback; if present, push
appends to the stored list in place. -/
def regPush : List (String × List Nat) → String → Nat →
    List (String × List Nat)
  | [], k, cb => [(k, [cb])]
  | (k1, v) :: r, k, cb =>
    if k1 = k then (k1, v ++ [cb]) :: r
    else (k1, v) :: regPush r k cb

/-- Registry removal: indexOf plus splice removes the first matching
callback from the list stored under the key (keys are unique, so
updating the matching entry is Map.get of the key); an absent key or
an absent callback changes nothing. -/
def regRemove : List (String × List Nat) → String → Nat →
    List (String × List Nat)
  | [], _, _ => []
  | (k1, v) :: r, k, c =>
    if k1 = k then (k1, v.erase c) :: regRemove r k c
    else (k1, v) :: regRemove r k c

/-- Replace the listener registry of the service. -/
def withListeners (w : World) (r : List (String × List Nat)) : World :=
  { w with svc := { w.svc with eventListeners := r } }

/-- Append a callback under a key in the registry of the service. -/
def pushListener (w : World) (k : String) (cb : Nat) : World :=
  withListeners w (regPush w.svc.eventListeners k cb)

/-- The connect-if-no-socket guard of on(). -/
def ensureSocket (prod : Bool) (w : World) : World :=
  if w.svc.socket.isNone then connect prod w else w

/-- on(event, callback): connect when no socket exists, then append the
callback under the key. -/
def onEv (prod : Bool) (w : World) (ev : String) (cb : Nat) : World :=
  pushListener (ensureSocket prod w) ev cb

/-- off(event, callback?): with a callback, remove its first
registration under the key; without one, do nothing. -/
def offEv (w : World) (ev : String) (cb : Option Nat) : World :=
  match cb with
  | some c =>
    { w with
      svc := { w.svc with eventListeners := regRemove w.svc.eventListeners ev c } }
  | none => w

def roomKey (h : String) : String := "roomUpdate:" ++ h

def activityKey (h : String) : String := "activityUpdate:" ++ h

/-- The transport branch shared by the scoped subscribe helpers: in SSE
mode ensure a stream for the topic, else connect when no socket
exists. -/
def sseOrConnect (prod : Bool) (w : World) (h : String) : World :=
  if w.svc.useSSE then connectSSE w h
  else if w.svc.socket.isNone then connect prod w
  else w

/-- Shared body of onRoomUpdate and onActivityUpdate: append the
callback under the scoped key, then run the transport branch. -/
def onScoped (prod : Bool) (w : World) (key h : String) (cb : Nat) : World :=
  sseOrConnect prod (pushListener w key cb) h

def onRoomUpdate (prod : Bool) (w : World) (h : String) (cb : Nat) : World :=
  onScoped prod w (roomKey h) h cb

def offRoomUpdate (w : World) (h : String) (cb : Option Nat) : World :=
  offEv w (roomKey h) cb

def onActivityUpdate (prod : Bool) (w : World) (h : String) (cb : Nat) : World :=
  onScoped prod w (activityKey h) h cb

def offActivityUpdate (w : World) (h : String) (cb : Option Nat) : World :=
  offEv w (activityKey h) cb

/-- disconnect(): clear the stored reconnect timer and the (always
null) polling interval, close and null the WebSocket, close every
tracked EventSource and clear the map, reset the flags and the counter
and clear the listener registry.  The per-attempt connection timeouts
and the anonymous SSE retry timeouts hold no stored handle and are not
cleared. -/
def disconnect (w : World) : World :=
  let closedIds := w.svc.sseConnections.map (fun e => e.2)
  { w with
    svc := { socket := none, isConnected := false, eventListeners := [],
             reconnectAttempts := 0, reconnectTimer := none,
             fallbackToPolling := w.svc.fallbackToPolling,
             pollingInterval := none,
             sseConnections := [], useSSE := false },
    pending := clearTimer w.pending w.svc.reconnectTimer,
    streams := w.streams.map
      (fun s => if closedIds.contains s.id then { s with closed := true } else s) }

/-- Common part of the WebSocket onclose and onerror handlers up to the
branch: record the close, drop the connected flag, and clear the
captured connection timeout. -/
def wsCloseAux (w : World) (s : WSock) : World :=
  { w with
    svc := { w.svc with
      socket := some { gen := s.gen, ready := 3 }, isConnected := false },
    pending := removeKind w.pending (TimerKind.connTimeout s.gen) }

/-- WebSocket onopen handler: mark open and connected, reset the
counter, leave SSE mode, clear the captured connection timeout and the
stored reconnect timer. -/
def wsOpenAux (w : World) (s : WSock) : World :=
  { w with
    svc := { w.svc with
      socket := some { gen := s.gen, ready := 1 }, isConnected := true,
      reconnectAttempts := 0, useSSE := false, reconnectTimer := none },
    pending := clearTimer
      (removeKind w.pending (TimerKind.connTimeout s.gen))
      w.svc.reconnectTimer }

/-- WebSocket onerror handler: drop the connected flag, clear the
captured connection timeout, and switch to SSE unless already there. -/
def wsErrorAux (w : World) (s : WSock) : World :=
  let w1 :=
    { w with
      svc := { w.svc with isConnected := false },
      pending := removeKind w.pending (TimerKind.connTimeout s.gen) }
  if w1.svc.useSSE then w1 else switchToSSE w1

/-- The shared message-dispatch body of socket.onmessage and
eventSource.onmessage: JSON.parse failure (none) is caught and dropped;
otherwise the key is data.event || data.type, looked up in the listener
Map (a miss, including any non-string key, delivers to no one), and
each listener receives data.data || data. -/
def dispatch (r : List (String × List Nat)) (m : Option JsonVal) :
    List (Nat × JsonVal) :=
  match m with
  | none => []
  | some d =>
    match jsOrField (jget d "event") (jget d "type") with
    | some (JsonVal.jstr ev) =>
      match findVal r ev with
      | some cbs => cbs.map (fun c => (c, jsOrDefault (jget d "data") d))
      | none => []
    | _ => []

/-- The envelope emit() serialises: {event, data}, where data is the
single argument when exactly one is passed and the argument array
otherwise. -/
def envelope (e : String) (args : List JsonVal) : JsonVal :=
  JsonVal.jobj
    [("event", JsonVal.jstr e),
     ("data", match args with | [a] => a | _ => JsonVal.jarr args)]

/-- emit(event, ...args): sends the envelope only when a socket exists
and the connected flag is set; otherwise nothing leaves the client.
The service state is untouched either way. -/
def emitFrame (w : World) (e : String) (args : List JsonVal) :
    Option JsonVal :=
  if w.svc.socket.isSome && w.svc.isConnected then some (envelope e args)
  else none

/-- Firing a pending timer: remove it and run its callback body.
The connection timeout acts only on a socket that is still CONNECTING
(then closes it and switches to SSE); the reconnect timer calls
connectWebSocket unconditionally (the stored handle goes stale); the
SSE retry acts only in SSE mode on an untracked topic, counts the
attempt, and reopens the stream while under the ceiling. -/
def fireTimer (w : World) (t : Nat) : World :=
  match findVal w.pending t with
  | none => w
  | some k =>
    let w1 := { w with pending := w.pending.filter (fun x => x.1 ≠ t) }
    match k with
    | TimerKind.connTimeout _ =>
      match w1.svc.socket with
      | some s => if s.ready = 0 then switchToSSE w1 else w1
      | none => w1
    | TimerKind.reconnect => connectWebSocket w1
    | TimerKind.sseRetry h =>
      if w1.svc.useSSE && (findVal w1.svc.sseConnections h).isNone then
        let w2 :=
          { w1 with
            svc := { w1.svc with
              reconnectAttempts := w1.svc.reconnectAttempts + 1 } }
        if w2.svc.reconnectAttempts < maxReconnectAttempts then
          connectSSE w2 h
        else w2
      else w1

/-- One event-loop callback: a public method call, a handler of the
current WebSocket, a handler of a tracked EventSource, or a timer
firing. -/
inductive Ev : Type where
  | connect : Ev
  | disconnect : Ev
  | onEv : String → Nat → Ev
  | offEv : String → Option Nat → Ev
  | onRoomUpdate : String → Nat → Ev
  | offRoomUpdate : String → Option Nat → Ev
  | onActivityUpdate : String → Nat → Ev
  | offActivityUpdate : String → Option Nat → Ev
  | emit : String → List JsonVal → Ev
  | wsOpen : Ev
  | wsClose : Nat → Ev
  | wsError : Ev
  | wsMessage : Option JsonVal → Ev
  | sseOpen : String → Ev
  | sseMessage : String → Option JsonVal → Ev
  | sseError : String → Bool → Ev
  | fire : Nat → Ev

/-- The step function: the world after the callback, together with the
listener invocations the callback performed.  WebSocket handlers fire
only while a socket exists and its readyState admits the event; SSE
handlers fire only for tracked streams; an sseError carries whether the
browser had already put the stream in readyState CLOSED (fatal). -/
def stepF (prod : Bool) (w : World) : Ev → World × List (Nat × JsonVal)
  | Ev.connect => (connect prod w, [])
  | Ev.disconnect => (disconnect w, [])
  | Ev.onEv e cb => (onEv prod w e cb, [])
  | Ev.offEv e cb => (offEv w e cb, [])
  | Ev.onRoomUpdate h cb => (onRoomUpdate prod w h cb, [])
  | Ev.offRoomUpdate h cb => (offRoomUpdate w h cb, [])
  | Ev.onActivityUpdate h cb => (onActivityUpdate prod w h cb, [])
  | Ev.offActivityUpdate h cb => (offActivityUpdate w h cb, [])
  | Ev.emit _ _ => (w, [])
  | Ev.wsOpen =>
    match w.svc.socket with
    | some s => if s.ready = 0 then (wsOpenAux w s, []) else (w, [])
    | none => (w, [])
  | Ev.wsClose code =>
    match w.svc.socket with
    | some s =>
      if s.ready = 3 then (w, [])
      else if code = 1006 then (switchToSSE (wsCloseAux w s), [])
      else (attemptReconnect (wsCloseAux w s), [])
    | none => (w, [])
  | Ev.wsError =>
    match w.svc.socket with
    | some s => if s.ready = 3 then (w, []) else (wsErrorAux w s, [])
    | none => (w, [])
  | Ev.wsMessage m =>
    match w.svc.socket with
    | some s =>
      if s.ready = 1 then (w, dispatch w.svc.eventListeners m) else (w, [])
    | none => (w, [])
  | Ev.sseOpen h =>
    match findVal w.svc.sseConnections h with
    | some _ => ({ w with svc := { w.svc with isConnected := true } }, [])
    | none => (w, [])
  | Ev.sseMessage h m =>
    match findVal w.svc.sseConnections h with
    | some _ => (w, dispatch w.svc.eventListeners m)
    | none => (w, [])
  | Ev.sseError h fatal =>
    match findVal w.svc.sseConnections h with
    | some sid =>
      let w1 :=
        { w with
          svc := { w.svc with
            sseConnections := w.svc.sseConnections.filter (fun e => e.1 ≠ h) } }
      if fatal then
        ({ w1 with
           streams := w1.streams.map
             (fun s => if s.id = sid then { s with closed := true } else s) }, [])
      else
        ({ w1 with
           pending := w1.pending ++ [(w1.nextT, TimerKind.sseRetry h)],
           nextT := w1.nextT + 1 }, [])
    | none => (w, [])
  | Ev.fire t => (fireTimer w t, [])

/-- Run a sequence of event-loop callbacks, keeping only the state. -/
def runEvs (prod : Bool) (w : World) (es : List Ev) : World :=
  es.foldl (fun w e => (stepF prod w e).1) w

/-- The listener list stored under a key ([] when the key is absent). -/
def listenersAt (w : World) (k : String) : List Nat :=
  (findVal w.svc.eventListeners k).getD []

/-- Number of EventSource objects for a topic that were constructed and
never closed. -/
def openStreamsFor (w : World) (h : String) : Nat :=
  (w.streams.filter (fun s => !s.closed && s.hotel == h)).length

/-- States reachable from the fresh service under a fixed deployment
flag. -/
inductive Reachable (prod : Bool) : World → Prop where
  | init : Reachable prod initWorld
  | step (w : World) (e : Ev) :
      Reachable prod w → Reachable prod (stepF prod w e).1

/-- Invariant of every state reachable in production: no WebSocket is
ever constructed and no reconnect timer is ever scheduled. -/
def InvP (w : World) : Prop :=
  w.svc.socket = none ∧ ∀ p ∈ w.pending, p.2 ≠ TimerKind.reconnect

/-- A subscribe or unsubscribe call on one registry key (the callback
argument of an unsubscribe may be omitted). -/
inductive RegOp : Type where
  | sub : Nat → RegOp
  | unsub : Option Nat → RegOp

/-- Run one registry call of the source against the service. -/
def applyRegOp (prod : Bool) (k : String) (w : World) : RegOp → World
  | RegOp.sub cb => onEv prod w k cb
  | RegOp.unsub c => offEv w k c

/-- Modelled from the spec: replaying one call as list-append for a
subscribe and remove-first-reference-equal-match for an unsubscribe,
with an omitted callback a no-op. -/
def replayStep (l : List Nat) : RegOp → List Nat
  | RegOp.sub cb => l ++ [cb]
  | RegOp.unsub (some c) => l.erase c
  | RegOp.unsub none => l

/-- Modelled from the spec (amended reading): the dispatch key is the
event field when present and truthy, otherwise the type field, and only
a string key can match. -/
def specKey (j : JsonVal) : Option String :=
  match jsOrField (jget j "event") (jget j "type") with
  | some (JsonVal.jstr s) => some s
  | _ => none

/-- Modelled from the spec (amended reading): the delivered payload is
the data field when present and truthy, otherwise the whole decoded
message. -/
def specPayload (j : JsonVal) : JsonVal :=
  jsOrDefault (jget j "data") j

/-- Modelled from the spec (amended reading): deliver the payload to
the listeners of the key, in stored order, when the key resolves to a
string; otherwise deliver nothing. -/
def dispatchSpec (r : List (String × List Nat)) (j : JsonVal) :
    List (Nat × JsonVal) :=
  match specKey j with
  | some s => ((findVal r s).getD []).map (fun c => (c, specPayload j))
  | none => []

/-- The payload of the round-trip scenario of the spec. -/
def occPayload : JsonVal := JsonVal.jobj [("status", JsonVal.jstr "occupied")]

/-- The envelope emit produces for the round-trip scenario. -/
def envOcc : JsonVal :=
  JsonVal.jobj
    [("event", JsonVal.jstr "roomUpdate:42"), ("data", occPayload)]

/-- A connected service with two callbacks under roomUpdate:42, used to
instantiate the round-trip and emit theorems. -/
def c4World : World :=
  { initWorld with
    svc := { initSvc with
      socket := some { gen := 0, ready := 1 }, isConnected := true,
      eventListeners := [("roomUpdate:42", [1, 2])] } }

/-- Development run: first attempt closes with a normal code, the
reconnect timer fires a second attempt.  The counter is now 1. -/
def c1Pre : World :=
  runEvs false initWorld [Ev.connect, Ev.wsClose 1000, Ev.fire 1]

/-- The state after the second attempt closes with code 1006. -/
def c1Post : World := (stepF false c1Pre (Ev.wsClose 1006)).1

/-- Development run with exactly two non-1006 close failures in a row
from the initial state. -/
def c2Short : World :=
  runEvs false initWorld
    [Ev.connect, Ev.wsClose 1000, Ev.fire 1, Ev.wsClose 1000]

/-- First attempt of a development run. -/
def devW1 : World := (stepF false initWorld Ev.connect).1

/-- After the first non-1006 close (one reconnect scheduled). -/
def devW2 : World := attemptReconnect (wsCloseAux devW1 { gen := 0, ready := 0 })

/-- After the reconnect timer fires the second attempt. -/
def devW3 : World := (stepF false devW2 (Ev.fire 1)).1

/-- After the second non-1006 close (second reconnect scheduled). -/
def devW4 : World := attemptReconnect (wsCloseAux devW3 { gen := 1, ready := 0 })

/-- After the reconnect timer fires the third attempt: the counter
stands at the ceiling while the third attempt is in flight. -/
def devW5 : World := (stepF false devW4 (Ev.fire 3)).1

/-- Development run in which connect() is called again while the first
reconnect timer is pending, orphaning that timer: the second close then
stores a fresh timer handle over the old one. -/
def c3Pre : World :=
  runEvs false initWorld
    [Ev.connect, Ev.wsClose 1000, Ev.connect, Ev.wsClose 1000]

/-- The state right after disconnect(): the stored reconnect timer was
cleared, the orphaned one was not. -/
def c3Disc : World := (stepF false c3Pre Ev.disconnect).1

/-- The state after the orphaned reconnect timer fires post-teardown. -/
def c3Zombie : World := (stepF false c3Disc (Ev.fire 1)).1

/-- Production run: direct fallback, one topic subscription, then a
transient (non-fatal) stream error followed by the retry timer. -/
def c7World : World :=
  runEvs true initWorld
    [Ev.connect, Ev.onRoomUpdate "7" 1, Ev.sseError "7" false, Ev.fire 0]

/-- Production run up to an open tracked stream for topic 42. -/
def c10Pre : World :=
  runEvs true initWorld [Ev.connect, Ev.onRoomUpdate "42" 1]

/-- The same run after the stream fires its open event. -/
def c10World : World := (stepF true c10Pre (Ev.sseOpen "42")).1

/-- Inbound message whose data field is present but falsy (the number
0). -/
def c8Msg : JsonVal :=
  JsonVal.jobj [("event", JsonVal.jstr "e"), ("data", JsonVal.jnum 0)]

/-- A registry with one listener under the key of c8Msg. -/
def c8Reg : List (String × List Nat) := [("e", [5])]

/-! ### Helper lemmas -/

theorem mem_of_findVal {α β : Type} [DecidableEq α] {l : List (α × β)}
    {x : α} {b : β} (h : findVal l x = some b) : (x, b) ∈ l := by
  induction l with
  | nil => simp [findVal] at h
  | cons e l ih =>
    obtain ⟨a, c⟩ := e
    by_cases ha : a = x
    · subst ha
      simp [findVal] at h
      subst h
      exact List.mem_cons_self _ _
    · simp [findVal, ha] at h
      exact List.mem_cons_of_mem _ (ih h)

theorem stepF_wsClose_ne (prod : Bool) (w : World) (s : WSock) (c : Nat)
    (hs : w.svc.socket = some s) (h3 : s.ready ≠ 3) (hc : c ≠ 1006) :
    stepF prod w (Ev.wsClose c) = (attemptReconnect (wsCloseAux w s), []) := by
  simp [stepF, hs, h3, hc]

theorem connect_listeners (prod : Bool) (w : World) :
    (connect prod w).svc.eventListeners = w.svc.eventListeners := by
  unfold connect
  split
  · rfl
  · split
    · rfl
    · split
      · rfl
      · rfl

theorem ensureSocket_listeners (prod : Bool) (w : World) :
    (ensureSocket prod w).svc.eventListeners = w.svc.eventListeners := by
  unfold ensureSocket
  split
  · exact connect_listeners prod w
  · rfl

theorem regGet_push_self (r : List (String × List Nat)) (k : String) (cb : Nat) :
    findVal (regPush r k cb) k = some ((findVal r k).getD [] ++ [cb]) := by
  induction r with
  | nil => simp [regPush, findVal]
  | cons e r ih =>
    obtain ⟨k1, v⟩ := e
    by_cases hk : k1 = k
    · subst hk
      simp [regPush, findVal]
    · simp [regPush, findVal, hk, ih]

theorem regGet_remove_self (r : List (String × List Nat)) (k : String) (c : Nat) :
    findVal (regRemove r k c) k =
      Option.map (fun l => l.erase c) (findVal r k) := by
  induction r with
  | nil => simp [regRemove, findVal]
  | cons e r ih =>
    obtain ⟨k1, v⟩ := e
    by_cases hk : k1 = k
    · subst hk
      simp [regRemove, findVal]
    · simp [regRemove, findVal, hk, ih]

theorem listenersAt_onEv (prod : Bool) (w : World) (k : String) (cb : Nat) :
    listenersAt (onEv prod w k cb) k = listenersAt w k ++ [cb] := by
  unfold listenersAt onEv pushListener withListeners
  rw [regGet_push_self, ensureSocket_listeners]
  simp

theorem listenersAt_offEv (w : World) (k : String) (c : Nat) :
    listenersAt (offEv w k (some c)) k = (listenersAt w k).erase c := by
  unfold listenersAt offEv
  rw [regGet_remove_self]
  cases hfv : findVal w.svc.eventListeners k with
  | none => simp
  | some l => simp

theorem listenersAt_applyRegOp (prod : Bool) (k : String) (w : World)
    (op : RegOp) :
    listenersAt (applyRegOp prod k w op) k =
      replayStep (listenersAt w k) op := by
  cases op with
  | sub cb => exact listenersAt_onEv prod w k cb
  | unsub c =>
    cases c with
    | some c => exact listenersAt_offEv w k c
    | none => rfl

theorem invP_clearTimer {w : World}
    (hp : ∀ p ∈ w.pending, p.2 ≠ TimerKind.reconnect) (h : Option Nat) :
    ∀ p ∈ clearTimer w.pending h, p.2 ≠ TimerKind.reconnect := by
  intro p hmem
  cases h with
  | none => exact hp p hmem
  | some n => exact hp p (List.mem_of_mem_filter hmem)

theorem invP_switch {w : World} (h : InvP w) : InvP (switchToSSE w) :=
  ⟨rfl, invP_clearTimer h.2 _⟩

theorem invP_connect {w : World} (h : InvP w) : InvP (connect true w) := by
  cases hu : w.svc.useSSE with
  | false =>
    have hc : connect true w = switchToSSE w := by
      simp [connect, h.1, hu]
    rw [hc]
    exact invP_switch h
  | true =>
    have hc : connect true w = w := by
      simp [connect, h.1, hu]
    rw [hc]
    exact h

theorem invP_connectSSE {w : World} (h : InvP w) (hh : String) :
    InvP (connectSSE w hh) := by
  unfold connectSSE
  split
  · exact h
  · exact ⟨h.1, h.2⟩

theorem invP_disconnect {w : World} (h : InvP w) : InvP (disconnect w) :=
  ⟨rfl, invP_clearTimer h.2 _⟩

theorem invP_pushListener {w : World} (h : InvP w) (k : String) (cb : Nat) :
    InvP (pushListener w k cb) :=
  ⟨h.1, h.2⟩

theorem invP_ensureSocket {w : World} (h : InvP w) :
    InvP (ensureSocket true w) := by
  unfold ensureSocket
  split
  · exact invP_connect h
  · exact h

theorem invP_sseOrConnect {w : World} (h : InvP w) (hh : String) :
    InvP (sseOrConnect true w hh) := by
  unfold sseOrConnect
  split
  · exact invP_connectSSE h hh
  · split
    · exact invP_connect h
    · exact h

theorem invP_offEv {w : World} (h : InvP w) (k : String) (c : Option Nat) :
    InvP (offEv w k c) := by
  cases c with
  | some cc => exact ⟨h.1, h.2⟩
  | none => exact h

theorem invP_fireTimer {w : World} (h : InvP w) (t : Nat) :
    InvP (fireTimer w t) := by
  unfold fireTimer
  cases hf : findVal w.pending t with
  | none => exact h
  | some k =>
    have hw1 : InvP { w with pending := w.pending.filter (fun x => x.1 ≠ t) } :=
      ⟨h.1, fun p hp => h.2 p (List.mem_of_mem_filter hp)⟩
    cases k with
    | connTimeout g =>
      dsimp only
      rw [show ({ w with pending := w.pending.filter (fun x => x.1 ≠ t) } : World).svc.socket = w.svc.socket from rfl, h.1]
      exact hw1
    | reconnect =>
      exact absurd rfl (h.2 (t, TimerKind.reconnect) (mem_of_findVal hf))
    | sseRetry hh =>
      dsimp only
      split
      · split
        · refine invP_connectSSE ?_ hh
          exact ⟨hw1.1, hw1.2⟩
        · exact ⟨hw1.1, hw1.2⟩
      · exact hw1

theorem reachable_true_invP {w : World} (h : Reachable true w) : InvP w := by
  induction h with
  | init => exact ⟨rfl, fun p hp => absurd hp (List.not_mem_nil p)⟩
  | step w e _ ih =>
    cases e with
    | connect => exact invP_connect ih
    | disconnect => exact invP_disconnect ih
    | onEv ev cb => exact invP_pushListener (invP_ensureSocket ih) ev cb
    | offEv ev cb => exact invP_offEv ih ev cb
    | onRoomUpdate hh cb =>
      exact invP_sseOrConnect (invP_pushListener ih (roomKey hh) cb) hh
    | offRoomUpdate hh cb => exact invP_offEv ih (roomKey hh) cb
    | onActivityUpdate hh cb =>
      exact invP_sseOrConnect (invP_pushListener ih (activityKey hh) cb) hh
    | offActivityUpdate hh cb => exact invP_offEv ih (activityKey hh) cb
    | emit e args => exact ih
    | wsOpen =>
      have hs : (stepF true w Ev.wsOpen).1 = w := by simp [stepF, ih.1]
      rw [hs]; exact ih
    | wsClose code =>
      have hs : (stepF true w (Ev.wsClose code)).1 = w := by simp [stepF, ih.1]
      rw [hs]; exact ih
    | wsError =>
      have hs : (stepF true w Ev.wsError).1 = w := by simp [stepF, ih.1]
      rw [hs]; exact ih
    | wsMessage m =>
      have hs : (stepF true w (Ev.wsMessage m)).1 = w := by simp [stepF, ih.1]
      rw [hs]; exact ih
    | sseOpen hh =>
      cases hf : findVal w.svc.sseConnections hh with
      | none =>
        have hs : (stepF true w (Ev.sseOpen hh)).1 = w := by simp [stepF, hf]
        rw [hs]; exact ih
      | some sid =>
        have hs : (stepF true w (Ev.sseOpen hh)).1 =
            { w with svc := { w.svc with isConnected := true } } := by
          simp [stepF, hf]
        rw [hs]; exact ⟨ih.1, ih.2⟩
    | sseMessage hh m =>
      have hs : (stepF true w (Ev.sseMessage hh m)).1 = w := by
        cases hf : findVal w.svc.sseConnections hh <;> simp [stepF, hf]
      rw [hs]; exact ih
    | sseError hh fatal =>
      cases hf : findVal w.svc.sseConnections hh with
      | none =>
        have hs : (stepF true w (Ev.sseError hh fatal)).1 = w := by
          simp [stepF, hf]
        rw [hs]; exact ih
      | some sid =>
        cases fatal with
        | true =>
          constructor
          · simp [stepF, hf]
            exact ih.1
          · intro p hp
            simp [stepF, hf] at hp
            exact ih.2 p hp
        | false =>
          constructor
          · simp [stepF, hf]
            exact ih.1
          · intro p hp
            simp [stepF, hf] at hp
            rcases hp with hp | hp
            · exact ih.2 p hp
            · rw [hp]
              simp
    | fire t => exact invP_fireTimer ih t

/-! ### Claim theorems -/

/-- Claim C1, counterexample: in the development run c1Pre the manager
is not in fallback mode and the reconnect counter stands at 1; the
close-1006 handler then moves it to fallback but also resets the
counter to 0, so the counter is not left unmodified by this path. -/
theorem spec_c1_counterexample :
    c1Pre.svc.useSSE = false ∧ c1Pre.svc.reconnectAttempts = 1 ∧
    c1Post.svc.useSSE = true ∧ c1Post.svc.reconnectAttempts = 0 :=
  ⟨rfl, rfl, rfl, rfl⟩

/-- Claim C1, amended: a close with code 1006 on a live socket switches
to fallback within that same callback and without a counted retry, but
switchToSSE resets the reconnect counter to 0 (so the counter is
unchanged only when it was already 0). -/
theorem spec_c1_amended (prod : Bool) (w : World) (s : WSock)
    (hs : w.svc.socket = some s) (h3 : s.ready ≠ 3) :
    (stepF prod w (Ev.wsClose 1006)).1.svc.useSSE = true ∧
    (stepF prod w (Ev.wsClose 1006)).1.svc.isConnected = false ∧
    (stepF prod w (Ev.wsClose 1006)).1.svc.socket = none ∧
    (stepF prod w (Ev.wsClose 1006)).1.svc.reconnectAttempts = 0 ∧
    (stepF prod w (Ev.wsClose 1006)).2 = [] := by
  have h : stepF prod w (Ev.wsClose 1006) = (switchToSSE (wsCloseAux w s), []) := by
    simp [stepF, hs, h3]
  rw [h]
  exact ⟨rfl, rfl, rfl, rfl, rfl⟩

/-- Claim C1, witness for the amended theorem at the concrete state
c1Pre. -/
theorem spec_c1_amended_witness :
    c1Pre.svc.socket = some { gen := 1, ready := 0 } ∧
    (stepF false c1Pre (Ev.wsClose 1006)).1.svc.useSSE = true ∧
    (stepF false c1Pre (Ev.wsClose 1006)).1.svc.reconnectAttempts = 0 :=
  ⟨rfl,
   (spec_c1_amended false c1Pre { gen := 1, ready := 0 } rfl (by decide)).1,
   (spec_c1_amended false c1Pre { gen := 1, ready := 0 } rfl (by decide)).2.2.2.1⟩

/-- Claim C2, counterexample: after exactly maxReconnectAttempts = 2
failed attempts in a row via non-1006 closes from the initial state,
the counter stands at the ceiling but the manager is NOT in fallback
mode: a reconnect timer for a third attempt is still pending. -/
theorem spec_c2_counterexample :
    c2Short.svc.reconnectAttempts = 2 ∧ c2Short.svc.useSSE = false ∧
    c2Short.svc.socket = some { gen := 1, ready := 3 } ∧
    c2Short.pending = [(3, TimerKind.reconnect)] :=
  ⟨rfl, rfl, rfl, rfl⟩

/-- Claim C2, amended: the fallback commits on the third consecutive
non-1006 close failure (the initial attempt plus ceiling retries); at
the moment of the transition the counter equals the ceiling 2, and
switchToSSE then resets it to 0. -/
theorem spec_c2_amended (c1 c2 c3 : Nat)
    (h1 : c1 ≠ 1006) (h2 : c2 ≠ 1006) (h3 : c3 ≠ 1006) :
    stepF false devW1 (Ev.wsClose c1) = (devW2, []) ∧
    stepF false devW3 (Ev.wsClose c2) = (devW4, []) ∧
    devW5.svc.reconnectAttempts = 2 ∧
    (stepF false devW5 (Ev.wsClose c3)).1.svc.useSSE = true ∧
    (stepF false devW5 (Ev.wsClose c3)).1.svc.reconnectAttempts = 0 := by
  have e1 := stepF_wsClose_ne false devW1 { gen := 0, ready := 0 } c1 rfl
    (by decide) h1
  have e2 := stepF_wsClose_ne false devW3 { gen := 1, ready := 0 } c2 rfl
    (by decide) h2
  have e3 := stepF_wsClose_ne false devW5 { gen := 2, ready := 0 } c3 rfl
    (by decide) h3
  refine ⟨e1, e2, rfl, ?_, ?_⟩
  · rw [e3]
    rfl
  · rw [e3]
    rfl

/-- Claim C2, witness for the amended theorem at close code 1000. -/
theorem spec_c2_amended_witness :
    (1000 : Nat) ≠ 1006 ∧
    (stepF false devW5 (Ev.wsClose 1000)).1.svc.useSSE = true :=
  ⟨by decide,
   (spec_c2_amended 1000 1000 1000 (by decide) (by decide) (by decide)).2.2.2.1⟩

/-- Claim C3, failing run: attemptReconnect overwrites the stored
reconnect-timer handle without clearing the old timer, so after
connect(); close(1000); connect(); close(1000) two reconnect timers are
pending while only the second handle is stored.  disconnect() cancels
only the stored one; the orphaned timer survives teardown, and firing
it constructs a fresh WebSocket, changing the manager state after
disconnect. -/
theorem spec_c3_zombie_reconnect :
    c3Pre.pending = [(1, TimerKind.reconnect), (3, TimerKind.reconnect)] ∧
    c3Disc.svc.socket = none ∧
    c3Disc.svc.reconnectTimer = none ∧
    c3Disc.pending = [(1, TimerKind.reconnect)] ∧
    c3Zombie.svc.socket = some { gen := 2, ready := 0 } :=
  ⟨rfl, rfl, rfl, rfl, rfl⟩

/-- Claim C4: emitting the roomUpdate:42 envelope over an open
bidirectional connection and feeding the serialised frame back in
invokes each callback registered under roomUpdate:42 exactly once per
registration, in stored order, with the inner data payload and not the
outer envelope. -/
theorem spec_c4_roundtrip (w : World) (cbs : List Nat)
    (hopen : w.svc.socket.isSome = true) (hconn : w.svc.isConnected = true)
    (hreg : findVal w.svc.eventListeners "roomUpdate:42" = some cbs) :
    emitFrame w "roomUpdate:42" [occPayload] = some envOcc ∧
    dispatch w.svc.eventListeners (some envOcc) =
      cbs.map (fun c => (c, occPayload)) := by
  constructor
  · simp [emitFrame, hopen, hconn]
    rfl
  · have hk : jsOrField (jget envOcc "event") (jget envOcc "type") =
        some (JsonVal.jstr "roomUpdate:42") := rfl
    have hp : jsOrDefault (jget envOcc "data") envOcc = occPayload := rfl
    simp [dispatch, hk, hreg, hp]

/-- Claim C4, witness at a connected service with two callbacks. -/
theorem spec_c4_roundtrip_witness :
    c4World.svc.socket.isSome = true ∧ c4World.svc.isConnected = true ∧
    findVal c4World.svc.eventListeners "roomUpdate:42" = some [1, 2] ∧
    (emitFrame c4World "roomUpdate:42" [occPayload] = some envOcc ∧
     dispatch c4World.svc.eventListeners (some envOcc) =
       [(1, occPayload), (2, occPayload)]) :=
  ⟨rfl, rfl, rfl, spec_c4_roundtrip c4World [1, 2] rfl rfl rfl⟩

/-- Claim C5: in production, calling connect() from any reachable state
that is not yet in fallback mode commits to fallback in that same call:
no WebSocket is constructed (the generation counter does not move), the
connected flag ends false, the socket stays null, and no listener is
invoked. -/
theorem spec_c5_production_fallback (w : World) (hr : Reachable true w)
    (hu : w.svc.useSSE = false) :
    (stepF true w Ev.connect).1.svc.useSSE = true ∧
    (stepF true w Ev.connect).1.svc.isConnected = false ∧
    (stepF true w Ev.connect).1.svc.socket = none ∧
    (stepF true w Ev.connect).1.nextG = w.nextG ∧
    (stepF true w Ev.connect).2 = [] := by
  have hs := (reachable_true_invP hr).1
  have hc : connect true w = switchToSSE w := by
    simp [connect, hs, hu]
  have hstep : stepF true w Ev.connect = (switchToSSE w, []) := by
    simp [stepF, hc]
  rw [hstep]
  exact ⟨rfl, rfl, rfl, rfl, rfl⟩

/-- Claim C5, witness at the initial state. -/
theorem spec_c5_production_fallback_witness :
    initWorld.svc.useSSE = false ∧
    (stepF true initWorld Ev.connect).1.svc.useSSE = true ∧
    (stepF true initWorld Ev.connect).1.nextG = initWorld.nextG :=
  ⟨rfl,
   (spec_c5_production_fallback initWorld Reachable.init rfl).1,
   (spec_c5_production_fallback initWorld Reachable.init rfl).2.2.2.1⟩

/-- Claim C6: for every key and every finite sequence of subscribe and
unsubscribe calls on that key, from any starting state, the resulting
listener list under the key equals the replay of list-append and
remove-first-match operations in call order (an unsubscribe with an
absent key, an absent callback, or an omitted callback is a no-op). -/
theorem spec_c6_registry_replay (prod : Bool) (k : String)
    (ops : List RegOp) (w : World) :
    listenersAt (ops.foldl (applyRegOp prod k) w) k =
      ops.foldl replayStep (listenersAt w k) := by
  induction ops generalizing w with
  | nil => rfl
  | cons op ops ih =>
    simp only [List.foldl_cons]
    rw [ih, listenersAt_applyRegOp]

/-- Claim C7, failing run: a transient stream error deletes the map
entry without closing the EventSource, and the retry then constructs a
second EventSource for topic 7 while the first was never closed: two
open streams exist for one topic. -/
theorem spec_c7_duplicate_streams :
    openStreamsFor c7World "7" = 2 ∧
    c7World.streams =
      [{ id := 0, hotel := "7", closed := false },
       { id := 1, hotel := "7", closed := false }] ∧
    c7World.svc.sseConnections = [("7", 1)] :=
  ⟨rfl, rfl, rfl⟩

/-- Claim C8, counterexample: the message has a data field (the number
0, a present payload), yet the listener receives the whole decoded
message instead of that field, because the source uses JS truthiness
(data.data || data) rather than presence. -/
theorem spec_c8_counterexample :
    jget c8Msg "data" = some (JsonVal.jnum 0) ∧
    dispatch c8Reg (some c8Msg) = [(5, c8Msg)] ∧
    c8Msg ≠ JsonVal.jnum 0 := by
  refine ⟨rfl, rfl, ?_⟩
  intro h
  exact JsonVal.noConfusion h

/-- Claim C8, amended: on a decoded message the dispatch key is the
event field when present and truthy, otherwise the type field; matching
listeners each receive the data field when present and truthy, and the
whole decoded message otherwise; a key that is not a string delivers to
no one.  Both transports share this body (dispatch). -/
theorem spec_c8_amended (r : List (String × List Nat)) (j : JsonVal) :
    dispatch r (some j) = dispatchSpec r j := by
  unfold dispatch dispatchSpec specKey specPayload
  rcases hk : jsOrField (jget j "event") (jget j "type") with _ | v
  · simp [hk]
  · cases v with
    | jstr s =>
      rcases hf : findVal r s with _ | cbs <;> simp [hk, hf]
    | jnull => simp [hk]
    | jbool b => simp [hk]
    | jnum n => simp [hk]
    | jarr xs => simp [hk]
    | jobj fs => simp [hk]

/-- Claim C9: with no open bidirectional connection (socket null or the
connected flag down) emit sends nothing, raises nothing (the model is a
total function) and leaves the whole state unchanged; with one open it
sends exactly the serialised envelope. -/
theorem spec_c9_emit (prod : Bool) (w : World) (e : String)
    (args : List JsonVal) :
    (w.svc.socket = none ∨ w.svc.isConnected = false →
      emitFrame w e args = none) ∧
    (∀ s : WSock, w.svc.socket = some s → w.svc.isConnected = true →
      emitFrame w e args = some (envelope e args)) ∧
    stepF prod w (Ev.emit e args) = (w, []) := by
  refine ⟨?_, ?_, rfl⟩
  · rintro (h | h) <;> simp [emitFrame, h]
  · intro s hs hc
    simp [emitFrame, hs, hc]

/-- Claim C9, witness at the initial (disconnected) state and at the
connected state c4World. -/
theorem spec_c9_emit_witness :
    (initWorld.svc.socket = none ∨ initWorld.svc.isConnected = false) ∧
    emitFrame initWorld "ping" [occPayload] = none ∧
    c4World.svc.socket = some { gen := 0, ready := 1 } ∧
    c4World.svc.isConnected = true ∧
    emitFrame c4World "ping" [occPayload] = some (envelope "ping" [occPayload]) :=
  ⟨Or.inl rfl,
   (spec_c9_emit false initWorld "ping" [occPayload]).1 (Or.inl rfl),
   rfl, rfl,
   (spec_c9_emit false c4World "ping" [occPayload]).2.1
     { gen := 0, ready := 1 } rfl rfl⟩

/-- Claim C10: the open handler of any tracked push-only stream sets
the connected flag unconditionally and touches no socket; in the
reachable production run c10World this yields isSocketConnected true
while the WebSocket handle is null, and emit then delivers nothing. -/
theorem spec_c10_sse_open :
    (∀ (prod : Bool) (w : World) (h : String) (sid : Nat),
      findVal w.svc.sseConnections h = some sid →
      (stepF prod w (Ev.sseOpen h)).1.svc.isConnected = true ∧
      (stepF prod w (Ev.sseOpen h)).1.svc.socket = w.svc.socket) ∧
    (c10World.svc.isConnected = true ∧ c10World.svc.socket = none ∧
     emitFrame c10World "roomUpdate:42" [occPayload] = none) := by
  constructor
  · intro prod w h sid hsid
    constructor <;> simp [stepF, hsid]
  · exact ⟨rfl, rfl, rfl⟩

/-- Claim C10, witness: the universal part applied to the tracked
stream of the production run c10Pre. -/
theorem spec_c10_sse_open_witness :
    findVal c10Pre.svc.sseConnections "42" = some 0 ∧
    (stepF true c10Pre (Ev.sseOpen "42")).1.svc.isConnected = true :=
  ⟨rfl, (spec_c10_sse_open.1 true c10Pre "42" 0 rfl).1⟩

end HotelSocket
